import Mathlib

/-!
Verification of the student_system record-keeping service (src/app/main.py).

The service keeps three append-only collections (users, lecturers,
evaluations) in JSON files and exposes handlers that read a collection,
validate, assign a sequential identifier, append and write back.  We embed
the persistent state as a `Storage` structure (one list per JSON file) and
each handler as a pure function `Storage → request → Except HTTPError
(response × Storage)`; raising `HTTPException` before any write is embedded
as returning `.error` with the unchanged state discarded.
-/

deriving instance DecidableEq for Except

namespace StudentSystem

/-- ASCII character of a decimal digit, as produced by Python's `"%d"`
formatting (`'0'` has code 48). -/
def digitChar (d : Nat) : Char := Char.ofNat (48 + d)

/-- Inverse of `digitChar` on decimal digits. -/
def charDigit (c : Char) : Nat := c.toNat - 48

/-- Embedding of Python's `f"{n:04d}"`: the decimal digits of `n`
(most-significant first), left-padded with `'0'` to width 4.  For `n = 0`
Python prints `"0000"`; `Nat.digits 10 0 = []` so the padding supplies all
four zeros, matching. -/
def pad4 (n : Nat) : String :=
  let ds := ((Nat.digits 10 n).reverse).map digitChar
  ⟨List.replicate (4 - ds.length) '0' ++ ds⟩

/-- Decoder for `pad4`: read the characters back as little-endian digits. -/
def unpad4 (s : String) : Nat :=
  Nat.ofDigits 10 ((s.data.map charDigit).reverse)

theorem charDigit_digitChar {d : Nat} (hd : d < 10) :
    charDigit (digitChar d) = d := by
  interval_cases d <;> decide

theorem ofDigits_replicate_zero (k : Nat) :
    Nat.ofDigits 10 (List.replicate k 0) = 0 := by
  induction k with
  | zero => simp [Nat.ofDigits]
  | succ n ih => simp [List.replicate_succ, Nat.ofDigits_cons, ih]

theorem charDigit_zero_char : charDigit '0' = 0 := rfl

theorem unpad4_pad4 (n : Nat) : unpad4 (pad4 n) = n := by
  unfold unpad4 pad4
  simp only [List.map_append, List.map_replicate, List.map_map,
    List.reverse_append, List.reverse_replicate, List.map_reverse,
    List.reverse_reverse]
  have hmap : (Nat.digits 10 n).map (charDigit ∘ digitChar)
      = (Nat.digits 10 n).map id := by
    apply List.map_congr_left
    intro d hd
    exact charDigit_digitChar (Nat.digits_lt_base (by norm_num) hd)
  rw [hmap, List.map_id]
  rw [Nat.ofDigits_append, Nat.ofDigits_digits, charDigit_zero_char,
    ofDigits_replicate_zero]
  ring

theorem pad4_injective : Function.Injective pad4 := by
  intro a b h
  have ha := unpad4_pad4 a
  rw [h, unpad4_pad4] at ha
  exact ha.symm

/-- `pad4` values with distinct arguments are distinct strings. -/
theorem pad4_ne {a b : Nat} (h : a ≠ b) : pad4 a ≠ pad4 b :=
  fun he => h (pad4_injective he)

/-! ## Data model (pydantic models and stored JSON records) -/

/-- Request body of `POST /register` (`class UserCreate`).  The `EmailStr`
syntax check happens in the framework before the handler runs; here `email`
is the already-accepted string. -/
structure UserCreate where
  name : String
  email : String
deriving DecidableEq, Repr

/-- Request body of `POST /lecturers` (`class LecturerCreate`). -/
structure LecturerCreate where
  name : String
  department : String
deriving DecidableEq, Repr

/-- Request body of `POST /evaluate` (`class EvaluationCreate`).
`comments: str | None = None` becomes `Option String`; a request that
omits the field parses to `comments = none`. -/
structure EvaluationCreate where
  user_index : String
  lecturer_id : String
  rating : Int
  comments : Option String
deriving DecidableEq, Repr

/-- A record of `users.json`:
`{"index": ..., "name": ..., "email": ...}`. -/
structure User where
  index : String
  name : String
  email : String
deriving DecidableEq, Repr

/-- A record of `lecturers.json`:
`{"id": ..., "name": ..., "department": ...}`. -/
structure Lecturer where
  id : String
  name : String
  department : String
deriving DecidableEq, Repr

/-- A record of `evaluations.json`; the handler always writes all four
keys, with `"comments": null` encoded as `none`. -/
structure Evaluation where
  user_index : String
  lecturer_id : String
  rating : Int
  comments : Option String
deriving DecidableEq, Repr

/-- The durable state: the contents of the three JSON files.  `read_json`
of a file is the corresponding field; `write_json` replaces it. -/
structure Storage where
  users : List User
  lecturers : List Lecturer
  evaluations : List Evaluation
deriving DecidableEq, Repr

/-- The state after `ensure_files_exist` on a fresh directory: each file
holds the empty JSON array. -/
def Storage.empty : Storage := ⟨[], [], []⟩

/-- `raise HTTPException(status_code=..., detail=...)`. -/
structure HTTPError where
  status_code : Nat
  detail : String
deriving DecidableEq, Repr

/-- Success body of `POST /register`. -/
structure RegisterResponse where
  index : String
  message : String
deriving DecidableEq, Repr

/-- Success body of `POST /lecturers`. -/
structure LecturerResponse where
  lecturer_id : String
  message : String
deriving DecidableEq, Repr

/-- Success body of `POST /evaluate`. -/
structure MessageResponse where
  message : String
deriving DecidableEq, Repr

/-! ## Identifier generator and handlers -/

/-- `generate_user_index`: `f"{len(users) + 1:04d}"` over the current
contents of `users.json`. -/
def generate_user_index (st : Storage) : String :=
  pad4 (st.users.length + 1)

/-- `generate_lecturer_id`: `f"L{len(lecturers) + 1:04d}"`. -/
def generate_lecturer_id (st : Storage) : String :=
  "L" ++ pad4 (st.lecturers.length + 1)

/-- `register_user` (`POST /register`): reject a duplicate email with
400 before writing, otherwise append the new user and persist. -/
def register_user (st : Storage) (user : UserCreate) :
    Except HTTPError (RegisterResponse × Storage) :=
  let users := st.users
  if users.any (fun u => u.email == user.email) then
    .error ⟨400, "User already exists"⟩
  else
    let user_index := generate_user_index st
    let users' := users ++ [⟨user_index, user.name, user.email⟩]
    .ok (⟨user_index, "User registered successfully"⟩,
      { st with users := users' })

/-- `add_lecturer` (`POST /lecturers`): assign the next id, append and
persist; there is no validation. -/
def add_lecturer (st : Storage) (lecturer : LecturerCreate) :
    Except HTTPError (LecturerResponse × Storage) :=
  let lecturers := st.lecturers
  let lecturer_id := generate_lecturer_id st
  let lecturers' :=
    lecturers ++ [⟨lecturer_id, lecturer.name, lecturer.department⟩]
  .ok (⟨lecturer_id, "Lecturer added successfully"⟩,
    { st with lecturers := lecturers' })

/-- `list_lecturers` (`GET /lecturers`): return `lecturers.json` as is. -/
def list_lecturers (st : Storage) : List Lecturer :=
  st.lecturers

/-- `evaluate_lecturer` (`POST /evaluate`): check user existence, then
lecturer existence, then rating range, in the source's order; on success
append the evaluation record and persist. -/
def evaluate_lecturer (st : Storage) (evaluation : EvaluationCreate) :
    Except HTTPError (MessageResponse × Storage) :=
  let users := st.users
  let lecturers := st.lecturers
  let evaluations := st.evaluations
  if ¬ users.any (fun u => u.index == evaluation.user_index) then
    .error ⟨404, "User not found"⟩
  else if ¬ lecturers.any (fun l => l.id == evaluation.lecturer_id) then
    .error ⟨404, "Lecturer not found"⟩
  else if evaluation.rating < 1 ∨ evaluation.rating > 5 then
    .error ⟨400, "Rating must be between 1 and 5"⟩
  else
    let evaluations' := evaluations ++
      [⟨evaluation.user_index, evaluation.lecturer_id,
        evaluation.rating, evaluation.comments⟩]
    .ok (⟨"Evaluation submitted successfully"⟩,
      { st with evaluations := evaluations' })

/-- `get_evaluations` (`GET /evaluations`): return `evaluations.json`
as is. -/
def get_evaluations (st : Storage) : List Evaluation :=
  st.evaluations

/-! ## Operation sequences -/

/-- A request to one of the three mutating endpoints. -/
inductive Op where
  | register (u : UserCreate)
  | addLect (l : LecturerCreate)
  | evaluate (e : EvaluationCreate)
deriving DecidableEq, Repr

/-- The durable state after handling one request: a handler that raises
`HTTPException` does so before any `write_json`, so a failed request
leaves every file as it was. -/
def step (st : Storage) : Op → Storage
  | .register u =>
    match register_user st u with
    | .ok (_, st') => st'
    | .error _ => st
  | .addLect l =>
    match add_lecturer st l with
    | .ok (_, st') => st'
    | .error _ => st
  | .evaluate e =>
    match evaluate_lecturer st e with
    | .ok (_, st') => st'
    | .error _ => st

/-- The durable state after a sequence of requests. -/
def run (st : Storage) (ops : List Op) : Storage :=
  ops.foldl step st

/-- Whether a request succeeds (returns 200) in a given state. -/
def opOk (st : Storage) : Op → Bool
  | .register u =>
    match register_user st u with
    | .ok _ => true
    | .error _ => false
  | .addLect l =>
    match add_lecturer st l with
    | .ok _ => true
    | .error _ => false
  | .evaluate e =>
    match evaluate_lecturer st e with
    | .ok _ => true
    | .error _ => false

/-- Whether a request targets `POST /register`. -/
def isRegisterOp : Op → Bool
  | .register _ => true
  | _ => false

/-- Whether a request targets `POST /lecturers`. -/
def isAddLectOp : Op → Bool
  | .addLect _ => true
  | _ => false

/-- Number of successful `POST /register` requests in a sequence. -/
def countRegOk : Storage → List Op → Nat
  | _, [] => 0
  | st, op :: ops =>
    (if isRegisterOp op && opOk st op then 1 else 0) +
      countRegOk (step st op) ops

/-- Number of successful `POST /lecturers` requests in a sequence. -/
def countLectOk : Storage → List Op → Nat
  | _, [] => 0
  | st, op :: ops =>
    (if isAddLectOp op && opOk st op then 1 else 0) +
      countLectOk (step st op) ops

/-! ## Handler characterizations -/

/-- `user_index` resolves to a stored user. -/
def UserExists (st : Storage) (ix : String) : Prop :=
  ∃ u ∈ st.users, u.index = ix

/-- `lecturer_id` resolves to a stored lecturer. -/
def LecturerExists (st : Storage) (lid : String) : Prop :=
  ∃ l ∈ st.lecturers, l.id = lid

instance (st : Storage) (ix : String) : Decidable (UserExists st ix) := by
  unfold UserExists; infer_instance

instance (st : Storage) (lid : String) : Decidable (LecturerExists st lid) := by
  unfold LecturerExists; infer_instance

theorem userExists_iff_any (st : Storage) (ix : String) :
    (st.users.any (fun u => u.index == ix)) = true ↔ UserExists st ix := by
  simp [UserExists, List.any_eq_true]

theorem lecturerExists_iff_any (st : Storage) (lid : String) :
    (st.lecturers.any (fun l => l.id == lid)) = true ↔ LecturerExists st lid := by
  simp [LecturerExists, List.any_eq_true]

theorem register_user_of_dup (st : Storage) (u : UserCreate)
    (h : ∃ x ∈ st.users, x.email = u.email) :
    register_user st u = .error ⟨400, "User already exists"⟩ := by
  have hc : (st.users.any (fun x => x.email == u.email)) = true := by
    simp [List.any_eq_true]
    exact h
  unfold register_user
  simp [hc]

theorem register_user_of_fresh (st : Storage) (u : UserCreate)
    (h : ∀ x ∈ st.users, x.email ≠ u.email) :
    register_user st u =
      .ok (⟨generate_user_index st, "User registered successfully"⟩,
        ⟨st.users ++ [⟨generate_user_index st, u.name, u.email⟩],
          st.lecturers, st.evaluations⟩) := by
  have hc : (st.users.any (fun x => x.email == u.email)) = false := by
    simp [List.any_eq_false]
    exact h
  unfold register_user
  simp [hc]

theorem add_lecturer_eq (st : Storage) (l : LecturerCreate) :
    add_lecturer st l =
      .ok (⟨generate_lecturer_id st, "Lecturer added successfully"⟩,
        ⟨st.users,
          st.lecturers ++ [⟨generate_lecturer_id st, l.name, l.department⟩],
          st.evaluations⟩) := rfl

theorem evaluate_lecturer_of_no_user (st : Storage) (e : EvaluationCreate)
    (h : ¬ UserExists st e.user_index) :
    evaluate_lecturer st e = .error ⟨404, "User not found"⟩ := by
  have hc : (st.users.any (fun u => u.index == e.user_index)) = false := by
    rw [← Bool.not_eq_true, userExists_iff_any]
    exact h
  unfold evaluate_lecturer
  simp [hc]

theorem evaluate_lecturer_of_no_lecturer (st : Storage) (e : EvaluationCreate)
    (hu : UserExists st e.user_index)
    (h : ¬ LecturerExists st e.lecturer_id) :
    evaluate_lecturer st e = .error ⟨404, "Lecturer not found"⟩ := by
  have hcu : (st.users.any (fun u => u.index == e.user_index)) = true :=
    (userExists_iff_any st e.user_index).mpr hu
  have hcl : (st.lecturers.any (fun l => l.id == e.lecturer_id)) = false := by
    rw [← Bool.not_eq_true, lecturerExists_iff_any]
    exact h
  unfold evaluate_lecturer
  simp [hcu, hcl]

theorem evaluate_lecturer_of_bad_rating (st : Storage) (e : EvaluationCreate)
    (hu : UserExists st e.user_index)
    (hl : LecturerExists st e.lecturer_id)
    (hr : e.rating < 1 ∨ e.rating > 5) :
    evaluate_lecturer st e = .error ⟨400, "Rating must be between 1 and 5"⟩ := by
  have hcu : (st.users.any (fun u => u.index == e.user_index)) = true :=
    (userExists_iff_any st e.user_index).mpr hu
  have hcl : (st.lecturers.any (fun l => l.id == e.lecturer_id)) = true :=
    (lecturerExists_iff_any st e.lecturer_id).mpr hl
  unfold evaluate_lecturer
  simp [hcu, hcl, hr]

theorem evaluate_lecturer_of_valid (st : Storage) (e : EvaluationCreate)
    (hu : UserExists st e.user_index)
    (hl : LecturerExists st e.lecturer_id)
    (hr : 1 ≤ e.rating ∧ e.rating ≤ 5) :
    evaluate_lecturer st e =
      .ok (⟨"Evaluation submitted successfully"⟩,
        ⟨st.users, st.lecturers,
          st.evaluations ++
            [⟨e.user_index, e.lecturer_id, e.rating, e.comments⟩]⟩) := by
  have hcu : (st.users.any (fun u => u.index == e.user_index)) = true :=
    (userExists_iff_any st e.user_index).mpr hu
  have hcl : (st.lecturers.any (fun l => l.id == e.lecturer_id)) = true :=
    (lecturerExists_iff_any st e.lecturer_id).mpr hl
  have hcr : ¬ (e.rating < 1 ∨ e.rating > 5) := by omega
  unfold evaluate_lecturer
  simp [hcu, hcl, hcr]

/-! ## Invariants over reachable states -/

/-- The spec's data-model invariants: unique user indices, unique user
emails, unique lecturer ids, and every stored evaluation has resolvable
references and a rating in `[1, 5]`. -/
def Invariant (st : Storage) : Prop :=
  (st.users.map User.index).Nodup ∧
  (st.users.map User.email).Nodup ∧
  (st.lecturers.map Lecturer.id).Nodup ∧
  ∀ ev ∈ st.evaluations,
    UserExists st ev.user_index ∧ LecturerExists st ev.lecturer_id ∧
    1 ≤ ev.rating ∧ ev.rating ≤ 5

/-- The stored identifiers are exactly the sequential ones, in creation
order: user `k` (1-based) has index `pad4 k`, lecturer `k` has id
`"L" ++ pad4 k`. -/
def SeqIds (st : Storage) : Prop :=
  st.users.map User.index =
    (List.range st.users.length).map (fun i => pad4 (i + 1)) ∧
  st.lecturers.map Lecturer.id =
    (List.range st.lecturers.length).map (fun i => "L" ++ pad4 (i + 1))

/-- Inductive strengthening: sequential identifiers plus the remaining
invariants. -/
def GoodState (st : Storage) : Prop :=
  SeqIds st ∧ (st.users.map User.email).Nodup ∧
  ∀ ev ∈ st.evaluations,
    UserExists st ev.user_index ∧ LecturerExists st ev.lecturer_id ∧
    1 ≤ ev.rating ∧ ev.rating ≤ 5

theorem string_append_left_cancel {s t₁ t₂ : String}
    (h : s ++ t₁ = s ++ t₂) : t₁ = t₂ := by
  apply String.ext
  have hd := congrArg String.data h
  rw [String.data_append, String.data_append] at hd
  exact List.append_cancel_left hd

theorem userIndexFun_injective :
    Function.Injective (fun i : Nat => pad4 (i + 1)) := by
  intro a b h
  have := pad4_injective h
  omega

theorem lecturerIdFun_injective :
    Function.Injective (fun i : Nat => "L" ++ pad4 (i + 1)) := by
  intro a b h
  have := pad4_injective (string_append_left_cancel h)
  omega

theorem goodState_invariant {st : Storage} (h : GoodState st) :
    Invariant st := by
  obtain ⟨⟨hu, hl⟩, he, hev⟩ := h
  refine ⟨?_, he, ?_, hev⟩
  · rw [hu]
    exact (List.nodup_range _).map userIndexFun_injective
  · rw [hl]
    exact (List.nodup_range _).map lecturerIdFun_injective

theorem goodState_empty : GoodState Storage.empty := by
  refine ⟨⟨rfl, rfl⟩, List.nodup_nil, ?_⟩
  intro ev hev
  simp [Storage.empty] at hev

theorem goodState_step {st : Storage} (op : Op) (h : GoodState st) :
    GoodState (step st op) := by
  obtain ⟨⟨hui, hli⟩, hem, hev⟩ := h
  cases op with
  | register u =>
    by_cases hd : ∃ x ∈ st.users, x.email = u.email
    · simp [step, register_user_of_dup st u hd]
      exact ⟨⟨hui, hli⟩, hem, hev⟩
    · push_neg at hd
      simp [step, register_user_of_fresh st u hd]
      refine ⟨⟨?_, hli⟩, ?_, ?_⟩
      · simp only [List.map_append, List.length_append, List.map_cons,
          List.map_nil, List.length_cons, List.length_nil]
        rw [hui, List.range_succ, List.map_append]
        simp [generate_user_index]
      · simp only [List.map_append, List.map_cons, List.map_nil]
        rw [List.nodup_append]
        refine ⟨hem, List.nodup_singleton _, ?_⟩
        intro a ha hb
        rw [List.mem_singleton] at hb
        subst hb
        obtain ⟨x, hx, hxe⟩ := List.mem_map.mp ha
        exact hd x hx hxe
      · intro ev hev'
        obtain ⟨⟨w, hw, hwi⟩, hle, hr⟩ := hev ev hev'
        exact ⟨⟨w, List.mem_append_left _ hw, hwi⟩, hle, hr⟩
  | addLect l =>
    simp [step, add_lecturer_eq st l]
    refine ⟨⟨hui, ?_⟩, hem, ?_⟩
    · simp only [List.map_append, List.length_append, List.map_cons,
        List.map_nil, List.length_cons, List.length_nil]
      rw [hli, List.range_succ, List.map_append]
      simp [generate_lecturer_id]
    · intro ev hev'
      obtain ⟨hue, ⟨w, hw, hwi⟩, hr⟩ := hev ev hev'
      exact ⟨hue, ⟨w, List.mem_append_left _ hw, hwi⟩, hr⟩
  | evaluate e =>
    by_cases hu : UserExists st e.user_index
    · by_cases hl : LecturerExists st e.lecturer_id
      · by_cases hr : 1 ≤ e.rating ∧ e.rating ≤ 5
        · simp [step, evaluate_lecturer_of_valid st e hu hl hr]
          refine ⟨⟨hui, hli⟩, hem, ?_⟩
          intro ev hev'
          rw [List.mem_append] at hev'
          cases hev' with
          | inl hev' => exact hev ev hev'
          | inr hev' =>
            rw [List.mem_singleton] at hev'
            subst hev'
            exact ⟨hu, hl, hr⟩
        · have hr' : e.rating < 1 ∨ e.rating > 5 := by omega
          simp [step, evaluate_lecturer_of_bad_rating st e hu hl hr']
          exact ⟨⟨hui, hli⟩, hem, hev⟩
      · simp [step, evaluate_lecturer_of_no_lecturer st e hu hl]
        exact ⟨⟨hui, hli⟩, hem, hev⟩
    · simp [step, evaluate_lecturer_of_no_user st e hu]
      exact ⟨⟨hui, hli⟩, hem, hev⟩

theorem goodState_run {st : Storage} (ops : List Op) (h : GoodState st) :
    GoodState (run st ops) := by
  induction ops generalizing st with
  | nil => exact h
  | cons op ops ih => exact ih (goodState_step op h)

/-! ## Inversion and counting lemmas -/

theorem register_user_ok_inv {st : Storage} {u : UserCreate}
    {r : RegisterResponse} {st' : Storage}
    (h : register_user st u = .ok (r, st')) :
    r = ⟨generate_user_index st, "User registered successfully"⟩ ∧
    st' = ⟨st.users ++ [⟨generate_user_index st, u.name, u.email⟩],
      st.lecturers, st.evaluations⟩ := by
  by_cases hd : ∃ x ∈ st.users, x.email = u.email
  · rw [register_user_of_dup st u hd] at h
    exact absurd h (by simp)
  · push_neg at hd
    rw [register_user_of_fresh st u hd] at h
    simp only [Except.ok.injEq, Prod.mk.injEq] at h
    exact ⟨h.1.symm, h.2.symm⟩

theorem add_lecturer_ok_inv {st : Storage} {l : LecturerCreate}
    {r : LecturerResponse} {st' : Storage}
    (h : add_lecturer st l = .ok (r, st')) :
    r = ⟨generate_lecturer_id st, "Lecturer added successfully"⟩ ∧
    st' = ⟨st.users,
      st.lecturers ++ [⟨generate_lecturer_id st, l.name, l.department⟩],
      st.evaluations⟩ := by
  rw [add_lecturer_eq] at h
  simp only [Except.ok.injEq, Prod.mk.injEq] at h
  exact ⟨h.1.symm, h.2.symm⟩

theorem evaluate_lecturer_ok_inv {st : Storage} {e : EvaluationCreate}
    {r : MessageResponse} {st' : Storage}
    (h : evaluate_lecturer st e = .ok (r, st')) :
    r = ⟨"Evaluation submitted successfully"⟩ ∧
    st' = ⟨st.users, st.lecturers,
      st.evaluations ++
        [⟨e.user_index, e.lecturer_id, e.rating, e.comments⟩]⟩ ∧
    UserExists st e.user_index ∧ LecturerExists st e.lecturer_id ∧
    1 ≤ e.rating ∧ e.rating ≤ 5 := by
  by_cases hu : UserExists st e.user_index
  · by_cases hl : LecturerExists st e.lecturer_id
    · by_cases hr : 1 ≤ e.rating ∧ e.rating ≤ 5
      · rw [evaluate_lecturer_of_valid st e hu hl hr] at h
        simp only [Except.ok.injEq, Prod.mk.injEq] at h
        exact ⟨h.1.symm, h.2.symm, hu, hl, hr⟩
      · have hr' : e.rating < 1 ∨ e.rating > 5 := by omega
        rw [evaluate_lecturer_of_bad_rating st e hu hl hr'] at h
        exact absurd h (by simp)
    · rw [evaluate_lecturer_of_no_lecturer st e hu hl] at h
      exact absurd h (by simp)
  · rw [evaluate_lecturer_of_no_user st e hu] at h
    exact absurd h (by simp)

theorem step_users_length (st : Storage) (op : Op) :
    (step st op).users.length = st.users.length +
      (if isRegisterOp op && opOk st op then 1 else 0) := by
  cases op with
  | register u =>
    cases hres : register_user st u with
    | error err => simp [step, opOk, hres, isRegisterOp, isAddLectOp]
    | ok v =>
      obtain ⟨r, st'⟩ := v
      obtain ⟨-, hst'⟩ := register_user_ok_inv hres
      subst hst'
      simp [step, opOk, hres, isRegisterOp, isAddLectOp]
  | addLect l =>
    cases hres : add_lecturer st l with
    | error err => simp [step, opOk, hres, isRegisterOp, isAddLectOp]
    | ok v =>
      obtain ⟨r, st'⟩ := v
      obtain ⟨-, hst'⟩ := add_lecturer_ok_inv hres
      subst hst'
      simp [step, opOk, hres, isRegisterOp, isAddLectOp]
  | evaluate e =>
    cases hres : evaluate_lecturer st e with
    | error err => simp [step, opOk, hres, isRegisterOp, isAddLectOp]
    | ok v =>
      obtain ⟨r, st'⟩ := v
      obtain ⟨-, hst', -⟩ := evaluate_lecturer_ok_inv hres
      subst hst'
      simp [step, opOk, hres, isRegisterOp, isAddLectOp]

theorem step_lecturers_length (st : Storage) (op : Op) :
    (step st op).lecturers.length = st.lecturers.length +
      (if isAddLectOp op && opOk st op then 1 else 0) := by
  cases op with
  | register u =>
    cases hres : register_user st u with
    | error err => simp [step, opOk, hres, isRegisterOp, isAddLectOp]
    | ok v =>
      obtain ⟨r, st'⟩ := v
      obtain ⟨-, hst'⟩ := register_user_ok_inv hres
      subst hst'
      simp [step, opOk, hres, isRegisterOp, isAddLectOp]
  | addLect l =>
    cases hres : add_lecturer st l with
    | error err => simp [step, opOk, hres, isRegisterOp, isAddLectOp]
    | ok v =>
      obtain ⟨r, st'⟩ := v
      obtain ⟨-, hst'⟩ := add_lecturer_ok_inv hres
      subst hst'
      simp [step, opOk, hres, isRegisterOp, isAddLectOp]
  | evaluate e =>
    cases hres : evaluate_lecturer st e with
    | error err => simp [step, opOk, hres, isRegisterOp, isAddLectOp]
    | ok v =>
      obtain ⟨r, st'⟩ := v
      obtain ⟨-, hst', -⟩ := evaluate_lecturer_ok_inv hres
      subst hst'
      simp [step, opOk, hres, isRegisterOp, isAddLectOp]

theorem run_users_length (ops : List Op) (st : Storage) :
    (run st ops).users.length = st.users.length + countRegOk st ops := by
  induction ops generalizing st with
  | nil => simp [run, countRegOk]
  | cons op ops ih =>
    show (run (step st op) ops).users.length = _
    rw [ih, step_users_length, countRegOk]
    omega

theorem run_lecturers_length (ops : List Op) (st : Storage) :
    (run st ops).lecturers.length = st.lecturers.length + countLectOk st ops := by
  induction ops generalizing st with
  | nil => simp [run, countLectOk]
  | cons op ops ih =>
    show (run (step st op) ops).lecturers.length = _
    rw [ih, step_lecturers_length, countLectOk]
    omega

theorem step_register_of_error {st : Storage} {u : UserCreate}
    {err : HTTPError} (h : register_user st u = .error err) :
    step st (.register u) = st := by
  simp [step, h]

theorem step_evaluate_of_error {st : Storage} {e : EvaluationCreate}
    {err : HTTPError} (h : evaluate_lecturer st e = .error err) :
    step st (.evaluate e) = st := by
  simp [step, h]

/-- A small populated store used to instantiate the theorems: one
registered user and one lecturer, no evaluations yet. -/
def sampleStore : Storage :=
  ⟨[⟨"0001", "Alice", "a@x.com"⟩], [⟨"L0001", "Dr. X", "CS"⟩], []⟩

/-! ## Claims -/

/-- C1: starting from empty collections, after any sequence of
`RegisterUser`, `AddLecturer` and `SubmitEvaluation` requests (failed
requests change nothing, so every state after a successful operation is of
this form), all stored user indices are unique, all stored user emails are
unique, all stored lecturer ids are unique, every stored evaluation
references an existing user and an existing lecturer, and every stored
rating lies in `[1, 5]`. -/
theorem c1_invariants_hold (ops : List Op) :
    Invariant (run Storage.empty ops) :=
  goodState_invariant (goodState_run ops goodState_empty)

/-- C2: after any sequence of requests starting from empty collections,
the stored user indices are exactly `pad4 1, ..., pad4 N` (that is,
`"0001"` through `f"{N:04d}"`) in creation order, where `N` is the number
of successful `RegisterUser` requests, and the stored lecturer ids are
exactly `"L0001"` through `f"L{M:04d}"` in creation order, where `M` is
the number of successful `AddLecturer` requests. -/
theorem c2_identifiers_sequential (ops : List Op) :
    (run Storage.empty ops).users.map User.index =
      (List.range (countRegOk Storage.empty ops)).map
        (fun i => pad4 (i + 1)) ∧
    (run Storage.empty ops).lecturers.map Lecturer.id =
      (List.range (countLectOk Storage.empty ops)).map
        (fun i => "L" ++ pad4 (i + 1)) := by
  obtain ⟨⟨hu, hl⟩, -, -⟩ := goodState_run ops goodState_empty
  have h1 := run_users_length ops Storage.empty
  have h2 := run_lecturers_length ops Storage.empty
  rw [show Storage.empty.users.length = 0 from rfl, Nat.zero_add] at h1
  rw [show Storage.empty.lecturers.length = 0 from rfl, Nat.zero_add] at h2
  rw [hu, hl, h1, h2]
  exact ⟨rfl, rfl⟩

/-- C3: if some stored user already has the candidate email
(case-sensitive exact match), `RegisterUser` fails with 400
`"User already exists"` (the `DuplicateEntity` failure) and the stored
state is unchanged; if no stored user has that email, it succeeds,
appending the new user with the next sequential index. -/
theorem c3_duplicate_email_rejected (st : Storage) (u : UserCreate) :
    ((∃ x ∈ st.users, x.email = u.email) →
      register_user st u = .error ⟨400, "User already exists"⟩ ∧
      step st (.register u) = st) ∧
    ((∀ x ∈ st.users, x.email ≠ u.email) →
      register_user st u =
        .ok (⟨generate_user_index st, "User registered successfully"⟩,
          ⟨st.users ++ [⟨generate_user_index st, u.name, u.email⟩],
            st.lecturers, st.evaluations⟩)) := by
  constructor
  · intro hd
    have he := register_user_of_dup st u hd
    exact ⟨he, step_register_of_error he⟩
  · intro hf
    exact register_user_of_fresh st u hf

/-- Witness for C3 at a concrete store: registering a taken email fails
and changes nothing; registering a fresh email succeeds. -/
theorem c3_witness :
    ((∃ x ∈ sampleStore.users, x.email = "a@x.com") ∧
      register_user sampleStore ⟨"Bob", "a@x.com"⟩ =
        .error ⟨400, "User already exists"⟩ ∧
      step sampleStore (.register ⟨"Bob", "a@x.com"⟩) = sampleStore) ∧
    ((∀ x ∈ sampleStore.users, x.email ≠ "b@x.com") ∧
      register_user sampleStore ⟨"Bob", "b@x.com"⟩ =
        .ok (⟨generate_user_index sampleStore,
            "User registered successfully"⟩,
          ⟨sampleStore.users ++ [⟨generate_user_index sampleStore,
              "Bob", "b@x.com"⟩],
            sampleStore.lecturers, sampleStore.evaluations⟩)) := by
  constructor
  · refine ⟨by decide, ?_⟩
    exact (c3_duplicate_email_rejected sampleStore ⟨"Bob", "a@x.com"⟩).1
      (by decide)
  · refine ⟨by decide, ?_⟩
    exact (c3_duplicate_email_rejected sampleStore ⟨"Bob", "b@x.com"⟩).2
      (by decide)

/-- C4: a `SubmitEvaluation` request whose `user_index` matches no stored
user fails with 404 (`NotFound`, detail `"User not found"`) and changes
nothing; a request whose `lecturer_id` matches no stored lecturer likewise
fails with a 404 `NotFound` and changes nothing (its detail is
`"Lecturer not found"` when the user exists, `"User not found"`
otherwise). -/
theorem c4_notfound_rejected (st : Storage) (e : EvaluationCreate) :
    (¬ UserExists st e.user_index →
      evaluate_lecturer st e = .error ⟨404, "User not found"⟩ ∧
      step st (.evaluate e) = st) ∧
    (¬ LecturerExists st e.lecturer_id →
      (∃ d, evaluate_lecturer st e = .error ⟨404, d⟩) ∧
      step st (.evaluate e) = st) := by
  constructor
  · intro hu
    have he := evaluate_lecturer_of_no_user st e hu
    exact ⟨he, step_evaluate_of_error he⟩
  · intro hl
    by_cases hu : UserExists st e.user_index
    · have he := evaluate_lecturer_of_no_lecturer st e hu hl
      exact ⟨⟨"Lecturer not found", he⟩, step_evaluate_of_error he⟩
    · have he := evaluate_lecturer_of_no_user st e hu
      exact ⟨⟨"User not found", he⟩, step_evaluate_of_error he⟩

/-- Witness for C4 at a concrete store: an unknown `user_index` and an
unknown `lecturer_id` both yield 404 and leave the store unchanged. -/
theorem c4_witness :
    (¬ UserExists sampleStore "9999" ∧
      evaluate_lecturer sampleStore ⟨"9999", "L0001", 3, none⟩ =
        .error ⟨404, "User not found"⟩ ∧
      step sampleStore (.evaluate ⟨"9999", "L0001", 3, none⟩) =
        sampleStore) ∧
    (¬ LecturerExists sampleStore "L9999" ∧
      (∃ d, evaluate_lecturer sampleStore ⟨"0001", "L9999", 3, none⟩ =
        .error ⟨404, d⟩) ∧
      step sampleStore (.evaluate ⟨"0001", "L9999", 3, none⟩) =
        sampleStore) := by
  constructor
  · refine ⟨by decide, ?_⟩
    exact (c4_notfound_rejected sampleStore ⟨"9999", "L0001", 3, none⟩).1
      (by decide)
  · refine ⟨by decide, ?_⟩
    exact (c4_notfound_rejected sampleStore ⟨"0001", "L9999", 3, none⟩).2
      (by decide)

/-- C5: with an existing `user_index` and an existing `lecturer_id`,
rating 0 and rating 6 fail with 400 (`OutOfRange`, detail
`"Rating must be between 1 and 5"`) while ratings 1 and 5 succeed;
in general a rating is accepted exactly when it lies in the inclusive
integer interval `[1, 5]`. -/
theorem c5_rating_boundaries (st : Storage) (uix lid : String)
    (c : Option String) (hu : UserExists st uix)
    (hl : LecturerExists st lid) :
    evaluate_lecturer st ⟨uix, lid, 0, c⟩ =
      .error ⟨400, "Rating must be between 1 and 5"⟩ ∧
    evaluate_lecturer st ⟨uix, lid, 6, c⟩ =
      .error ⟨400, "Rating must be between 1 and 5"⟩ ∧
    (∃ st', evaluate_lecturer st ⟨uix, lid, 1, c⟩ =
      .ok (⟨"Evaluation submitted successfully"⟩, st')) ∧
    (∃ st', evaluate_lecturer st ⟨uix, lid, 5, c⟩ =
      .ok (⟨"Evaluation submitted successfully"⟩, st')) ∧
    (∀ r : Int, (1 ≤ r ∧ r ≤ 5) ↔
      ∃ st', evaluate_lecturer st ⟨uix, lid, r, c⟩ =
        .ok (⟨"Evaluation submitted successfully"⟩, st')) := by
  refine ⟨?_, ?_, ?_, ?_, ?_⟩
  · exact evaluate_lecturer_of_bad_rating st ⟨uix, lid, 0, c⟩ hu hl
      (by norm_num)
  · exact evaluate_lecturer_of_bad_rating st ⟨uix, lid, 6, c⟩ hu hl
      (by norm_num)
  · exact ⟨_, evaluate_lecturer_of_valid st ⟨uix, lid, 1, c⟩ hu hl
      (by norm_num)⟩
  · exact ⟨_, evaluate_lecturer_of_valid st ⟨uix, lid, 5, c⟩ hu hl
      (by norm_num)⟩
  · intro r
    constructor
    · intro hr
      exact ⟨_, evaluate_lecturer_of_valid st ⟨uix, lid, r, c⟩ hu hl hr⟩
    · intro ⟨st', hok⟩
      obtain ⟨-, -, -, -, hr⟩ := evaluate_lecturer_ok_inv hok
      exact hr

/-- Witness for C5 at a concrete store with an existing user and
lecturer. -/
theorem c5_witness :
    UserExists sampleStore "0001" ∧ LecturerExists sampleStore "L0001" ∧
    (evaluate_lecturer sampleStore ⟨"0001", "L0001", 0, none⟩ =
      .error ⟨400, "Rating must be between 1 and 5"⟩ ∧
    evaluate_lecturer sampleStore ⟨"0001", "L0001", 6, none⟩ =
      .error ⟨400, "Rating must be between 1 and 5"⟩ ∧
    (∃ st', evaluate_lecturer sampleStore ⟨"0001", "L0001", 1, none⟩ =
      .ok (⟨"Evaluation submitted successfully"⟩, st')) ∧
    (∃ st', evaluate_lecturer sampleStore ⟨"0001", "L0001", 5, none⟩ =
      .ok (⟨"Evaluation submitted successfully"⟩, st')) ∧
    (∀ r : Int, (1 ≤ r ∧ r ≤ 5) ↔
      ∃ st', evaluate_lecturer sampleStore ⟨"0001", "L0001", r, none⟩ =
        .ok (⟨"Evaluation submitted successfully"⟩, st'))) :=
  ⟨by decide, by decide,
    c5_rating_boundaries sampleStore "0001" "L0001" none (by decide)
      (by decide)⟩

/-- C6 counterexample: the claim predicts that a request combining an
out-of-range rating with a nonexistent `user_index` reports `OutOfRange`
(rating checked first); on the empty store the request
`{user_index := "0001", lecturer_id := "L0001", rating := 0}` is instead
rejected with 404 `"User not found"`, because the code checks user
existence first. -/
theorem c6_counterexample :
    evaluate_lecturer Storage.empty ⟨"0001", "L0001", 0, none⟩ =
      .error ⟨404, "User not found"⟩ ∧
    evaluate_lecturer Storage.empty ⟨"0001", "L0001", 0, none⟩ ≠
      .error ⟨400, "Rating must be between 1 and 5"⟩ := by
  decide

/-- C6 (amended): when several checks fail simultaneously,
`SubmitEvaluation` reports the first failure in the order user existence,
then lecturer existence, then rating range; in particular a request with
both an out-of-range rating and a nonexistent `user_index` reports
`NotFound` (`"User not found"`), not `OutOfRange`. -/
theorem c6_check_order (st : Storage) (e : EvaluationCreate) :
    (¬ UserExists st e.user_index →
      evaluate_lecturer st e = .error ⟨404, "User not found"⟩) ∧
    (UserExists st e.user_index → ¬ LecturerExists st e.lecturer_id →
      evaluate_lecturer st e = .error ⟨404, "Lecturer not found"⟩) ∧
    (UserExists st e.user_index → LecturerExists st e.lecturer_id →
      (e.rating < 1 ∨ e.rating > 5) →
      evaluate_lecturer st e =
        .error ⟨400, "Rating must be between 1 and 5"⟩) :=
  ⟨evaluate_lecturer_of_no_user st e,
    evaluate_lecturer_of_no_lecturer st e,
    evaluate_lecturer_of_bad_rating st e⟩

/-- Witness for the amended C6: on a store with one user and one
lecturer, each of the three failure positions is exercised at a concrete
request. -/
theorem c6_witness :
    (¬ UserExists sampleStore "9999" ∧
      evaluate_lecturer sampleStore ⟨"9999", "L0001", 0, none⟩ =
        .error ⟨404, "User not found"⟩) ∧
    (UserExists sampleStore "0001" ∧
      ¬ LecturerExists sampleStore "L9999" ∧
      evaluate_lecturer sampleStore ⟨"0001", "L9999", 0, none⟩ =
        .error ⟨404, "Lecturer not found"⟩) ∧
    (LecturerExists sampleStore "L0001" ∧
      ((0 : Int) < 1 ∨ (0 : Int) > 5) ∧
      evaluate_lecturer sampleStore ⟨"0001", "L0001", 0, none⟩ =
        .error ⟨400, "Rating must be between 1 and 5"⟩) := by
  refine ⟨⟨by decide, ?_⟩, ⟨by decide, by decide, ?_⟩,
    ⟨by decide, by norm_num, ?_⟩⟩
  · exact (c6_check_order sampleStore ⟨"9999", "L0001", 0, none⟩).1
      (by decide)
  · exact (c6_check_order sampleStore ⟨"0001", "L9999", 0, none⟩).2.1
      (by decide) (by decide)
  · exact (c6_check_order sampleStore ⟨"0001", "L0001", 0, none⟩).2.2
      (by decide) (by decide) (by norm_num)

/-- C7 counterexample: the claim that `AddLecturer` "accepts exactly the
non-empty strings" fails — the code imposes no constraint at all, so the
request with empty `name` and empty `department` also succeeds and is
stored. -/
theorem c7_counterexample :
    add_lecturer Storage.empty ⟨"", ""⟩ =
      .ok (⟨"L0001", "Lecturer added successfully"⟩,
        ⟨[], [⟨"L0001", "", ""⟩], []⟩) := by
  rw [add_lecturer_eq]
  simp [generate_lecturer_id, pad4, digitChar, Storage.empty]

/-- C7 (amended): for every state and every candidate `(name,
department)` — non-empty or not — `AddLecturer` succeeds with no failure
modes and no uniqueness constraint: it assigns the next sequential id,
appends the lecturer and persists, leaving the other collections
unchanged. -/
theorem c7_add_lecturer_total (st : Storage) (l : LecturerCreate) :
    ∃ st', add_lecturer st l =
      .ok (⟨generate_lecturer_id st, "Lecturer added successfully"⟩, st') ∧
      st'.lecturers = st.lecturers ++
        [⟨generate_lecturer_id st, l.name, l.department⟩] ∧
      st'.users = st.users ∧ st'.evaluations = st.evaluations :=
  ⟨_, add_lecturer_eq st l, rfl, rfl, rfl⟩

/-- C8: a record successfully created by `AddLecturer` or
`SubmitEvaluation` appears verbatim (all fields as stored at creation) in
the output of the corresponding list operation, appended at the end, so
records are listed in creation order. -/
theorem c8_round_trip (sa sa' sb sb' : Storage) (l : LecturerCreate)
    (e : EvaluationCreate) (rl : LecturerResponse) (re : MessageResponse)
    (hl : add_lecturer sa l = .ok (rl, sa'))
    (he : evaluate_lecturer sb e = .ok (re, sb')) :
    list_lecturers sa' =
      list_lecturers sa ++ [⟨rl.lecturer_id, l.name, l.department⟩] ∧
    get_evaluations sb' =
      get_evaluations sb ++
        [⟨e.user_index, e.lecturer_id, e.rating, e.comments⟩] := by
  obtain ⟨hrl, hsa⟩ := add_lecturer_ok_inv hl
  obtain ⟨-, hsb, -⟩ := evaluate_lecturer_ok_inv he
  subst hrl hsa hsb
  exact ⟨rfl, rfl⟩

/-- Witness for C8: a concrete lecturer creation and a concrete
evaluation submission, each followed by the corresponding list call. -/
theorem c8_witness :
    add_lecturer Storage.empty ⟨"Dr. X", "CS"⟩ =
      .ok (⟨"L0001", "Lecturer added successfully"⟩,
        ⟨[], [⟨"L0001", "Dr. X", "CS"⟩], []⟩) ∧
    evaluate_lecturer sampleStore ⟨"0001", "L0001", 5, none⟩ =
      .ok (⟨"Evaluation submitted successfully"⟩,
        ⟨sampleStore.users, sampleStore.lecturers,
          [⟨"0001", "L0001", 5, none⟩]⟩) ∧
    (list_lecturers ⟨[], [⟨"L0001", "Dr. X", "CS"⟩], []⟩ =
      list_lecturers Storage.empty ++ [⟨"L0001", "Dr. X", "CS"⟩] ∧
    get_evaluations ⟨sampleStore.users, sampleStore.lecturers,
        [⟨"0001", "L0001", 5, none⟩]⟩ =
      get_evaluations sampleStore ++ [⟨"0001", "L0001", 5, none⟩]) := by
  have h1 : add_lecturer Storage.empty ⟨"Dr. X", "CS"⟩ =
      .ok (⟨"L0001", "Lecturer added successfully"⟩,
        ⟨[], [⟨"L0001", "Dr. X", "CS"⟩], []⟩) := by
    rw [add_lecturer_eq]
    simp [generate_lecturer_id, pad4, digitChar, Storage.empty]
  have h2 : evaluate_lecturer sampleStore ⟨"0001", "L0001", 5, none⟩ =
      .ok (⟨"Evaluation submitted successfully"⟩,
        ⟨sampleStore.users, sampleStore.lecturers,
          [⟨"0001", "L0001", 5, none⟩]⟩) := by decide
  exact ⟨h1, h2, c8_round_trip _ _ _ _ _ _ _ _ h1 h2⟩

theorem step_register_frame (st : Storage) (u : UserCreate) :
    (step st (.register u)).lecturers = st.lecturers ∧
    (step st (.register u)).evaluations = st.evaluations := by
  cases hres : register_user st u with
  | error err => simp [step, hres]
  | ok v =>
    obtain ⟨r, st'⟩ := v
    obtain ⟨-, hst'⟩ := register_user_ok_inv hres
    subst hst'
    simp [step, hres]

theorem step_addLect_frame (st : Storage) (l : LecturerCreate) :
    (step st (.addLect l)).users = st.users ∧
    (step st (.addLect l)).evaluations = st.evaluations := by
  cases hres : add_lecturer st l with
  | error err => simp [step, hres]
  | ok v =>
    obtain ⟨r, st'⟩ := v
    obtain ⟨-, hst'⟩ := add_lecturer_ok_inv hres
    subst hst'
    simp [step, hres]

theorem step_evaluate_frame (st : Storage) (e : EvaluationCreate) :
    (step st (.evaluate e)).users = st.users ∧
    (step st (.evaluate e)).lecturers = st.lecturers := by
  cases hres : evaluate_lecturer st e with
  | error err => simp [step, hres]
  | ok v =>
    obtain ⟨r, st'⟩ := v
    obtain ⟨-, hst', -⟩ := evaluate_lecturer_ok_inv hres
    subst hst'
    simp [step, hres]

/-- C9: each operation mutates at most its own collection — whether it
succeeds or fails, `RegisterUser` leaves lecturers and evaluations
unchanged, `AddLecturer` leaves users and evaluations unchanged,
`SubmitEvaluation` leaves users and lecturers unchanged, and the list
operations are pure reads of their collection. -/
theorem c9_frame_property (st : Storage) (u : UserCreate)
    (l : LecturerCreate) (e : EvaluationCreate) :
    (step st (.register u)).lecturers = st.lecturers ∧
    (step st (.register u)).evaluations = st.evaluations ∧
    (step st (.addLect l)).users = st.users ∧
    (step st (.addLect l)).evaluations = st.evaluations ∧
    (step st (.evaluate e)).users = st.users ∧
    (step st (.evaluate e)).lecturers = st.lecturers ∧
    list_lecturers st = st.lecturers ∧
    get_evaluations st = st.evaluations :=
  ⟨(step_register_frame st u).1, (step_register_frame st u).2,
    (step_addLect_frame st l).1, (step_addLect_frame st l).2,
    (step_evaluate_frame st e).1, (step_evaluate_frame st e).2,
    rfl, rfl⟩

/-- A `POST /evaluate` body in which the optional `comments` field is
omitted: pydantic fills in the declared default `None`
(`comments: str | None = None`), so the parsed request carries
`comments = none`. -/
def EvaluationCreate.noComments (uix lid : String) (r : Int) :
    EvaluationCreate :=
  ⟨uix, lid, r, none⟩

/-- C10: a `SubmitEvaluation` request that omits `comments` is accepted
(given valid references and rating); the stored record carries
`comments = none` (serialized as JSON `null`, the key always written),
and `ListEvaluations` afterwards returns that record with
`comments = none`. -/
theorem c10_omitted_comments (st : Storage) (uix lid : String) (r : Int)
    (hu : UserExists st uix) (hl : LecturerExists st lid)
    (hr : 1 ≤ r ∧ r ≤ 5) :
    ∃ st', evaluate_lecturer st (EvaluationCreate.noComments uix lid r) =
      .ok (⟨"Evaluation submitted successfully"⟩, st') ∧
      get_evaluations st' =
        get_evaluations st ++ [⟨uix, lid, r, none⟩] ∧
      (∃ ev ∈ get_evaluations st', ev = ⟨uix, lid, r, none⟩ ∧
        ev.comments = none) := by
  refine ⟨_, evaluate_lecturer_of_valid st
    (EvaluationCreate.noComments uix lid r) hu hl hr, rfl, ?_⟩
  exact ⟨⟨uix, lid, r, none⟩,
    List.mem_append_right _ (List.mem_singleton_self _), rfl, rfl⟩

/-- Witness for C10: a concrete comment-less submission on a store with
one user and one lecturer. -/
theorem c10_witness :
    UserExists sampleStore "0001" ∧ LecturerExists sampleStore "L0001" ∧
    (1 ≤ (4 : Int) ∧ (4 : Int) ≤ 5) ∧
    (∃ st', evaluate_lecturer sampleStore
        (EvaluationCreate.noComments "0001" "L0001" 4) =
      .ok (⟨"Evaluation submitted successfully"⟩, st') ∧
      get_evaluations st' =
        get_evaluations sampleStore ++ [⟨"0001", "L0001", 4, none⟩] ∧
      (∃ ev ∈ get_evaluations st', ev = ⟨"0001", "L0001", 4, none⟩ ∧
        ev.comments = none)) :=
  ⟨by decide, by decide, by norm_num,
    c10_omitted_comments sampleStore "0001" "L0001" 4 (by decide)
      (by decide) (by norm_num)⟩

end StudentSystem
